import Mathlib

/-!
Shallow embedding of `src/PaliGemma.py`, a Streamlit vision-QA demo.
The embedded parts are: image acquisition (`load_image_from_url`, the
image-source branch of `main`, lines 118-148), the model-load button
handler (`load_model` and lines 105-107 of `main`), the inference
pipeline (`inference`, lines 54-80), and the ask-button validation gate
(lines 161-176 of `main`).  External library behaviour (PIL decoding,
HTTP, the torch model and processor) is abstracted into explicit
function-valued parameters; wall-clock time is modelled by a tick
counter threaded through the pipeline, each external call advancing it
by a per-call duration.
-/

namespace PaliGemma

/-- An in-memory PIL image: a color mode string (as in PIL, e.g. "RGB",
"RGBA", "L") plus pixel dimensions. -/
structure PILImage where
  mode : String
  width : Nat
  height : Nat
deriving DecidableEq

/-- `Image.convert(m)`: a copy of the image in color mode `m`
(pixel data is abstracted away; dimensions are preserved). -/
def PILImage.convert (img : PILImage) (m : String) : PILImage :=
  { img with mode := m }

/-- Number of channels of a PIL color mode. -/
def channelCount : String → Nat
  | "LA" => 2
  | "RGB" => 3
  | "YCbCr" => 3
  | "HSV" => 3
  | "RGBA" => 4
  | "CMYK" => 4
  | _ => 1

/-- Outcome of an HTTP GET as observed by `requests.get`: a timeout
exception, a connection-level exception, or a response with a status
code and a body (a byte list). -/
inductive HttpOutcome where
  | timeout
  | connectionError
  | response (status : Nat) (body : List Nat)
deriving DecidableEq

/-- What `load_image_from_url` produces: `returned` is the function's
Python return value (the image, or `None`) — the only thing the caller
receives — and `displayedError` is the message shown via `st.error`,
a UI side effect invisible to the caller. -/
structure UrlLoadResult where
  returned : Option PILImage
  displayedError : Option String
deriving DecidableEq

/-- The error banner text of `load_image_from_url`
(`st.error(f"無法從 URL 載入圖片: {str(e)}")`). -/
def urlErrMsg (e : String) : String := "無法從 URL 載入圖片: " ++ e

/-- `load_image_from_url(url)` (lines 83-92): GET with `timeout=10`,
`raise_for_status()` (which raises exactly for status codes in
[400, 600)), then `Image.open(BytesIO(response.content)).convert("RGB")`;
every exception is caught, reported via `st.error`, and `None` is
returned.  `http` is the network's behaviour (url and timeout to
outcome); `image_open` is PIL's decoder (`Image.open`), failing with the
exception message when the bytes are not a valid image. -/
def load_image_from_url (http : String → Nat → HttpOutcome)
    (image_open : List Nat → Except String PILImage) (url : String) :
    UrlLoadResult :=
  match http url 10 with
  | .timeout => ⟨none, some (urlErrMsg "Timeout")⟩
  | .connectionError => ⟨none, some (urlErrMsg "ConnectionError")⟩
  | .response status body =>
    if 400 ≤ status ∧ status < 600 then
      ⟨none, some (urlErrMsg ("HTTPError: " ++ toString status))⟩
    else
      match image_open body with
      | .error e => ⟨none, some (urlErrMsg e)⟩
      | .ok img => ⟨some (img.convert "RGB"), none⟩

/-- The options of the image-source radio widget (line 120). -/
def imageSourceOptions : List String :=
  ["上傳本機檔案", "輸入圖片 URL", "拍攝照片"]

/-- The string the camera `elif` branch compares against (line 142). -/
def cameraBranchGuard : String := "📷 拍攝照片"

/-- The image-selection logic of `main` (lines 124-145): starting from
`image = None`, branch on the radio selection.  Upload and camera decode
the supplied bytes with `Image.open(...).convert("RGB")` — a decode
failure there is an uncaught exception (modelled as `.error`).  The URL
branch (guarded by a non-empty url and the load button) delegates to
`load_image_from_url`, whose failures are caught internally. -/
def selectImage (http : String → Nat → HttpOutcome)
    (image_open : List Nat → Except String PILImage)
    (image_source : String) (uploaded_file : Option (List Nat))
    (url : String) (loadClicked : Bool) (picture : Option (List Nat)) :
    Except String (Option PILImage) :=
  if image_source = "上傳本機檔案" then
    match uploaded_file with
    | none => .ok none
    | some bytes =>
      match image_open bytes with
      | .error e => .error e
      | .ok img => .ok (some (img.convert "RGB"))
  else if image_source = "輸入圖片 URL" then
    if url ≠ "" ∧ loadClicked then
      .ok (load_image_from_url http image_open url).returned
    else .ok none
  else if image_source = cameraBranchGuard then
    match picture with
    | none => .ok none
    | some bytes =>
      match image_open bytes with
      | .error e => .error e
      | .ok img => .ok (some (img.convert "RGB"))
  else .ok none

/-- A sample PIL decoder for concrete evaluations: the byte list `[1]`
decodes to a 2×2 palette image, everything else raises PIL's
"cannot identify image file" error. -/
def imageOpenEx : List Nat → Except String PILImage :=
  fun bytes => if bytes = [1] then .ok ⟨"P", 2, 2⟩
               else .error "cannot identify image file"

/-- A network that is never consulted successfully (always times out);
used where the URL branch is not exercised. -/
def httpNever : String → Nat → HttpOutcome := fun _ _ => .timeout

/-- The encoded tensor batch produced by the processor
(`BatchFeature` in transformers): an abstract payload plus the device
and dtype it currently lives on. -/
structure BatchFeature where
  payload : List Nat
  device : String
  dtype : String
deriving DecidableEq

/-- The PaliGemma processor: its `__call__` (joint text/image encoding,
taking the keyword arguments used at lines 58-64: `text`, `images`,
`padding`, `do_convert_rgb`, `return_tensors`) and its `decode` (taking
`skip_special_tokens`).  Each call takes `callTime` resp. `decodeTime`
wall-clock ticks and may raise (`.error`). -/
structure Processor where
  callFn : String → PILImage → String → Bool → String → Except String BatchFeature
  callTime : Nat
  decodeFn : Bool → List Nat → Except String String
  decodeTime : Nat

/-- The PaliGemma model: its dtype, and `generate`, taking `max_length`
and whether gradients are disabled (the `torch.no_grad()` context) and
returning a batch of output token sequences.  A call takes
`generateTime` wall-clock ticks and may raise. -/
structure Model where
  dtype : String
  generateFn : Nat → Bool → BatchFeature → Except String (List (List Nat))
  generateTime : Nat

/-- torch tensor `.to` behaviour: moving a batch to a device resp.
casting it to a dtype, each with a duration, each able to raise
(device mismatch, out-of-memory). -/
structure Torch where
  toDevice : BatchFeature → String → Except String BatchFeature
  toDeviceTime : Nat
  toDtype : BatchFeature → String → Except String BatchFeature
  toDtypeTime : Nat

/-- Observable calls the inference pipeline makes to the processor,
torch and model, with the arguments it passes. -/
inductive Event where
  | encodeCall (text : String) (imageMode : String) (padding : String)
      (doConvertRgb : Bool) (returnTensors : String)
  | toDeviceCall (device : String)
  | toDtypeCall (dtype : String)
  | generateCall (maxLength : Nat) (noGrad : Bool)
  | decodeCall (skipSpecialTokens : Bool)
deriving DecidableEq

/-- `inference(model, processor, image, input_text, device)`
(lines 54-80), instrumented with the trace of external calls and a tick
clock starting at `t0`.  Steps, as in the source: encode with
`padding="longest"`, `do_convert_rgb=True`, `return_tensors="pt"`;
`.to(device)`; `.to(dtype=model.dtype)`; read `start_time`; generate
with `max_length=496` under `torch.no_grad()`; compute
`inference_time = time.time() - start_time`; decode `output[0]` with
`skip_special_tokens=True`.  Any exception in any step is caught and
turned into the result `(f"錯誤: {e}", None)`; the function is total, so
no exception propagates. -/
def inference (torch : Torch) (model : Model) (processor : Processor)
    (image : PILImage) (input_text : String) (device : String) (t0 : Nat) :
    (String × Option Nat) × List Event :=
  let e1 := Event.encodeCall input_text image.mode "longest" true "pt"
  match processor.callFn input_text image "longest" true "pt" with
  | .error e => (("錯誤: " ++ e, none), [e1])
  | .ok inputs0 =>
    let t1 := t0 + processor.callTime
    let e2 := Event.toDeviceCall device
    match torch.toDevice inputs0 device with
    | .error e => (("錯誤: " ++ e, none), [e1, e2])
    | .ok inputs1 =>
      let t2 := t1 + torch.toDeviceTime
      let e3 := Event.toDtypeCall model.dtype
      match torch.toDtype inputs1 model.dtype with
      | .error e => (("錯誤: " ++ e, none), [e1, e2, e3])
      | .ok inputs2 =>
        let t3 := t2 + torch.toDtypeTime
        let start_time := t3
        let e4 := Event.generateCall 496 true
        match model.generateFn 496 true inputs2 with
        | .error e => (("錯誤: " ++ e, none), [e1, e2, e3, e4])
        | .ok output =>
          let t4 := t3 + model.generateTime
          let inference_time := t4 - start_time
          match output with
          | [] => (("錯誤: " ++ "list index out of range", none), [e1, e2, e3, e4])
          | o0 :: _ =>
            let e5 := Event.decodeCall true
            match processor.decodeFn true o0 with
            | .error e => (("錯誤: " ++ e, none), [e1, e2, e3, e4, e5])
            | .ok result => ((result, some inference_time), [e1, e2, e3, e4, e5])

/-- The exception message of the first pipeline step that raises on the
given inputs (`none` when every step succeeds): the chain of lines 58-75
with each `.error`, and the `output[0]` IndexError on an empty batch,
counted as a raise. -/
def pipelineErrMsg (torch : Torch) (model : Model) (processor : Processor)
    (image : PILImage) (input_text : String) (device : String) :
    Option String :=
  match processor.callFn input_text image "longest" true "pt" with
  | .error e => some e
  | .ok inputs0 =>
    match torch.toDevice inputs0 device with
    | .error e => some e
    | .ok inputs1 =>
      match torch.toDtype inputs1 model.dtype with
      | .error e => some e
      | .ok inputs2 =>
        match model.generateFn 496 true inputs2 with
        | .error e => some e
        | .ok [] => some "list index out of range"
        | .ok (o0 :: _) =>
          match processor.decodeFn true o0 with
          | .error e => some e
          | .ok _ => none

/-- The Streamlit session state relevant here: the keys `model`,
`processor`, `device` (initialized to `None`, `None`, and a device
string at lines 30-35). -/
structure SessionState where
  model : Option Model
  processor : Option Processor
  device : String

/-- `load_model()` (lines 37-51): delegates entirely to the external
model registry / torch loader, whose behaviour is the `loader`
parameter; on success it returns the `(model, processor, device)`
triple, on failure the exception propagates. -/
def load_model (loader : Except String (Model × Processor × String)) :
    Except String (Model × Processor × String) := loader

/-- The load-model button handler (lines 105-107):
`st.session_state.model, st.session_state.processor,
st.session_state.device = load_model()`.  Python evaluates the
right-hand side first, so a raising `load_model` performs no assignment
at all: the state is returned unchanged and the exception surfaces as a
visible error (the second component). -/
def loadButtonHandler (state : SessionState)
    (loader : Except String (Model × Processor × String)) :
    SessionState × Option String :=
  match load_model loader with
  | .ok mpd => ({ model := some mpd.1, processor := some mpd.2.1,
                  device := mpd.2.2 }, none)
  | .error e => (state, some e)

/-- Outcome of the ask button: either blocked by validation with an
error banner, or the pipeline was invoked with the given text argument,
producing a result and a trace. -/
inductive AskOutcome where
  | blocked (msg : String)
  | invoked (textArg : String) (result : String × Option Nat)
      (trace : List Event)

/-- How many times the Inference Pipeline was invoked in this outcome. -/
def pipelineCalls : AskOutcome → Nat
  | .blocked _ => 0
  | .invoked _ _ _ => 1

/-- The TypeError Python raises when the stored processor is `None` and
`processor(...)` is called inside `inference` (caught there like any
other exception). -/
def noneCallableMsg : String := "TypeError: NoneType object is not callable"

/-- Python `str.strip()` with no argument: the string with leading and
trailing whitespace removed. -/
def pyStrip (s : String) : String :=
  String.mk
    (((s.data.dropWhile Char.isWhitespace).reverse.dropWhile
        Char.isWhitespace).reverse)

/-- The ask-button handler (lines 161-176): the validation gate checks,
in order, `st.session_state.model is None`, `image is None`,
`not input_text.strip()`; only when all three pass is
`inference(st.session_state.model, st.session_state.processor, image,
input_text, st.session_state.device)` invoked — with the original,
untrimmed `input_text`.  (If the state held a model but no processor,
Python would still enter `inference` and the call of `None` would be
caught there; that corner is modelled in the second-to-last arm.) -/
def askButtonHandler (torch : Torch) (state : SessionState)
    (image : Option PILImage) (input_text : String) (t0 : Nat) :
    AskOutcome :=
  match state.model with
  | none => .blocked "請先在左側載入模型!"
  | some m =>
    match image with
    | none => .blocked "請先選擇一張圖片!"
    | some img =>
      if pyStrip input_text = "" then .blocked "請輸入問題!"
      else
        match state.processor with
        | none => .invoked input_text ("錯誤: " ++ noneCallableMsg, none)
            [Event.encodeCall input_text img.mode "longest" true "pt"]
        | some p =>
          let r := inference torch m p img input_text state.device t0
          .invoked input_text r.1 r.2

/-- A network on which every GET yields HTTP 404 with a non-image body. -/
def http404 : String → Nat → HttpOutcome := fun _ _ => .response 404 [9]

/-- A network on which every GET yields HTTP 200 with a non-image body. -/
def http200bad : String → Nat → HttpOutcome := fun _ _ => .response 200 [9]

/-- A network on which every GET yields HTTP 301 (a redirect status left
unfollowed, e.g. missing Location header) whose body is a valid image. -/
def http301 : String → Nat → HttpOutcome := fun _ _ => .response 301 [1]

/-- Whether the URL fetch fails for any reason (network-kind: timeout,
connection error, 4xx/5xx status — or decode-kind: body not a valid
image), mirroring the exception sources inside `load_image_from_url`. -/
def urlFetchFails (http : String → Nat → HttpOutcome)
    (image_open : List Nat → Except String PILImage) (url : String) :
    Bool :=
  match http url 10 with
  | .timeout => true
  | .connectionError => true
  | .response status body =>
    if 400 ≤ status ∧ status < 600 then true
    else
      match image_open body with
      | .error _ => true
      | .ok _ => false

/-- Whether the GET outcome is a network-kind failure: timeout,
connection error, or a status `raise_for_status` raises on (4xx/5xx). -/
def isHttpFailure : HttpOutcome → Bool
  | .timeout => true
  | .connectionError => true
  | .response s _ => decide (400 ≤ s ∧ s < 600)

/-- Every image `load_image_from_url` returns went through
`.convert("RGB")`. -/
theorem load_image_from_url_mode (http : String → Nat → HttpOutcome)
    (image_open : List Nat → Except String PILImage) (url : String)
    (img : PILImage)
    (h : (load_image_from_url http image_open url).returned = some img) :
    img.mode = "RGB" := by
  unfold load_image_from_url at h
  cases hh : http url 10 with
  | timeout => rw [hh] at h; simp at h
  | connectionError => rw [hh] at h; simp at h
  | response status body =>
    rw [hh] at h
    by_cases hs : 400 ≤ status ∧ status < 600
    · simp [hs] at h
    · simp only [if_neg hs] at h
      cases hi : image_open body with
      | error e => rw [hi] at h; simp at h
      | ok i =>
        rw [hi] at h
        simp only [Option.some.injEq] at h
        rw [← h]
        rfl

/-- C1: the claim says a live camera capture is normalized into a
canonical RGB image exactly like an upload.  In the code the camera
`elif` (line 142) compares the radio value against `"📷 拍攝照片"`,
but the radio widget (line 120) only ever returns `"拍攝照片"` (no emoji
prefix), so the camera branch is unreachable: with the camera source
selected and a valid captured picture, no image is produced, while the
same bytes through the upload branch do produce an RGB image. -/
theorem camera_selection_never_yields_image :
    imageSourceOptions.contains "拍攝照片" = true ∧
    imageSourceOptions.contains cameraBranchGuard = false ∧
    selectImage httpNever imageOpenEx "拍攝照片" none "" false (some [1]) =
      .ok none ∧
    selectImage httpNever imageOpenEx "上傳本機檔案" (some [1]) "" false none =
      .ok (some (PILImage.mk "RGB" 2 2)) := by
  exact ⟨by decide, by decide, by rfl, by rfl⟩

/-- C2 counterexample: a NetworkError-kind failure (HTTP 404) and a
DecodeError-kind failure (HTTP 200 with a non-image body) both make
`load_image_from_url` return the very same value `none` to its caller —
no typed failure distinguishing the two kinds is returned. -/
theorem url_failure_kinds_not_distinguishable :
    (load_image_from_url http404 imageOpenEx "u").returned = none ∧
    (load_image_from_url http200bad imageOpenEx "u").returned = none ∧
    (load_image_from_url http404 imageOpenEx "u").returned =
      (load_image_from_url http200bad imageOpenEx "u").returned := by
  exact ⟨rfl, rfl, rfl⟩

/-- C2 amended: every URL-fetch failure, of either kind, is reported as
a user-visible error banner while the caller receives `none`; the
return value carries no failure-kind information. -/
theorem url_failures_reported_untyped (http : String → Nat → HttpOutcome)
    (image_open : List Nat → Except String PILImage) (url : String)
    (h : urlFetchFails http image_open url = true) :
    (load_image_from_url http image_open url).returned = none ∧
    ((load_image_from_url http image_open url).displayedError).isSome
      = true := by
  unfold urlFetchFails at h
  unfold load_image_from_url
  cases hh : http url 10 with
  | timeout => exact ⟨rfl, rfl⟩
  | connectionError => exact ⟨rfl, rfl⟩
  | response status body =>
    rw [hh] at h
    by_cases hs : 400 ≤ status ∧ status < 600
    · simp [hs]
    · simp only [if_neg hs] at h ⊢
      cases hi : image_open body with
      | error e => simp
      | ok i => rw [hi] at h; simp at h

/-- Witness for `url_failures_reported_untyped` at a concrete failing
fetch (HTTP 404). -/
theorem url_failures_reported_untyped_witness :
    (load_image_from_url http404 imageOpenEx "u").returned = none ∧
    ((load_image_from_url http404 imageOpenEx "u").displayedError).isSome
      = true :=
  url_failures_reported_untyped http404 imageOpenEx "u" (by rfl)

/-- C7 counterexample: HTTP status 301 is not a 2xx success status, yet
when the (unfollowed) response body is a valid image,
`load_image_from_url` produces an image: `raise_for_status` only raises
for statuses in [400, 600), not for every non-2xx status. -/
theorem non2xx_status_can_produce_image :
    299 < 301 ∧
    (load_image_from_url http301 imageOpenEx "u").returned =
      some (PILImage.mk "RGB" 2 2) := by
  exact ⟨by decide, rfl⟩

/-- C7 amended: the fetch consults the network only through a GET with
timeout 10 (two networks agreeing on that call are indistinguishable to
it), and whenever that GET times out, fails to connect, or returns a
4xx/5xx status, no image is produced and the failure is reported via a
visible error banner. -/
theorem url_http_failures_produce_no_image
    (http http2 : String → Nat → HttpOutcome)
    (image_open : List Nat → Except String PILImage) (url : String)
    (h : isHttpFailure (http url 10) = true)
    (hagree : http url 10 = http2 url 10) :
    (load_image_from_url http image_open url).returned = none ∧
    ((load_image_from_url http image_open url).displayedError).isSome
      = true ∧
    load_image_from_url http image_open url =
      load_image_from_url http2 image_open url := by
  refine ⟨?_, ?_, ?_⟩
  · unfold load_image_from_url
    cases hh : http url 10 with
    | timeout => rfl
    | connectionError => rfl
    | response status body =>
      rw [hh] at h
      unfold isHttpFailure at h
      simp only [decide_eq_true_eq] at h
      simp [h]
  · unfold load_image_from_url
    cases hh : http url 10 with
    | timeout => rfl
    | connectionError => rfl
    | response status body =>
      rw [hh] at h
      unfold isHttpFailure at h
      simp only [decide_eq_true_eq] at h
      simp [h]
  · unfold load_image_from_url
    rw [hagree]

/-- Witness for `url_http_failures_produce_no_image` at a concrete
timing-out network. -/
theorem url_http_failures_produce_no_image_witness :
    (load_image_from_url httpNever imageOpenEx "u").returned = none ∧
    ((load_image_from_url httpNever imageOpenEx "u").displayedError).isSome
      = true ∧
    load_image_from_url httpNever imageOpenEx "u" =
      load_image_from_url httpNever imageOpenEx "u" :=
  url_http_failures_produce_no_image httpNever httpNever imageOpenEx "u"
    (by rfl) (by rfl)

/-- C8: every image the acquisition step actually produces — whatever
the source branch and the original color mode — has been converted to
mode "RGB" and therefore has exactly 3 channels. -/
theorem acquired_images_are_rgb (http : String → Nat → HttpOutcome)
    (image_open : List Nat → Except String PILImage)
    (image_source : String) (uploaded_file : Option (List Nat))
    (url : String) (loadClicked : Bool) (picture : Option (List Nat))
    (img : PILImage)
    (h : selectImage http image_open image_source uploaded_file url
          loadClicked picture = .ok (some img)) :
    img.mode = "RGB" ∧ channelCount img.mode = 3 := by
  have hm : img.mode = "RGB" := by
    unfold selectImage at h
    split at h
    · cases uploaded_file with
      | none => simp at h
      | some bytes =>
        dsimp only at h
        cases hi : image_open bytes with
        | error e => rw [hi] at h; simp at h
        | ok i =>
          rw [hi] at h
          simp only [Except.ok.injEq, Option.some.injEq] at h
          rw [← h]; rfl
    · split at h
      · split at h
        · simp only [Except.ok.injEq] at h
          exact load_image_from_url_mode http image_open url img h
        · simp at h
      · split at h
        · cases picture with
          | none => simp at h
          | some bytes =>
            dsimp only at h
            cases hi : image_open bytes with
            | error e => rw [hi] at h; simp at h
            | ok i =>
              rw [hi] at h
              simp only [Except.ok.injEq, Option.some.injEq] at h
              rw [← h]; rfl
        · simp at h
  exact ⟨hm, by rw [hm]; rfl⟩

/-- Witness for `acquired_images_are_rgb` at a concrete successful
upload. -/
theorem acquired_images_are_rgb_witness :
    (PILImage.mk "RGB" 2 2).mode = "RGB" ∧
    channelCount (PILImage.mk "RGB" 2 2).mode = 3 :=
  acquired_images_are_rgb httpNever imageOpenEx "上傳本機檔案" (some [1])
    "" false none (PILImage.mk "RGB" 2 2) (by rfl)

/-- A torch whose `.to` calls always succeed, each taking 1 tick. -/
def torchOk : Torch :=
  { toDevice := fun b d => .ok { b with device := d }, toDeviceTime := 1,
    toDtype := fun b d => .ok { b with dtype := d }, toDtypeTime := 1 }

/-- A processor whose encoding and decoding always succeed. -/
def procOk : Processor :=
  { callFn := fun _ _ _ _ _ => .ok ⟨[0], "cpu", "fp32"⟩, callTime := 2,
    decodeFn := fun _ _ => .ok "a red square", decodeTime := 3 }

/-- A model whose generation always succeeds in 7 ticks. -/
def modelOk : Model :=
  { dtype := "bf16", generateFn := fun _ _ _ => .ok [[5, 6]],
    generateTime := 7 }

/-- A processor whose encoding step raises. -/
def procBadEncode : Processor :=
  { callFn := fun _ _ _ _ _ => .error "CUDA out of memory", callTime := 2,
    decodeFn := fun _ _ => .ok "x", decodeTime := 3 }

/-- A 224×224 RGB test image. -/
def img0 : PILImage := ⟨"RGB", 224, 224⟩

/-- C4: whenever some step of the pipeline raises (with message `m`),
`inference` catches it and returns the result `("錯誤: " ++ m, None)`:
the answer slot holds an error message and the latency component is
absent.  `inference` is a total function, so no exception ever
propagates out of it. -/
theorem inference_catches_all_failures (torch : Torch) (model : Model)
    (processor : Processor) (img : PILImage) (q device : String)
    (t0 : Nat) (m : String)
    (h : pipelineErrMsg torch model processor img q device = some m) :
    (inference torch model processor img q device t0).1 =
      ("錯誤: " ++ m, none) := by
  unfold pipelineErrMsg at h
  unfold inference
  cases h1 : processor.callFn q img "longest" true "pt" with
  | error e =>
    rw [h1] at h
    simp only [Option.some.injEq] at h
    subst h
    rfl
  | ok i0 =>
    rw [h1] at h
    try dsimp only at h ⊢
    cases h2 : torch.toDevice i0 device with
    | error e =>
      rw [h2] at h
      simp only [Option.some.injEq] at h
      subst h
      rfl
    | ok i1 =>
      rw [h2] at h
      try dsimp only at h ⊢
      cases h3 : torch.toDtype i1 model.dtype with
      | error e =>
        rw [h3] at h
        simp only [Option.some.injEq] at h
        subst h
        rfl
      | ok i2 =>
        rw [h3] at h
        try dsimp only at h ⊢
        cases h4 : model.generateFn 496 true i2 with
        | error e =>
          rw [h4] at h
          simp only [Option.some.injEq] at h
          subst h
          rfl
        | ok out =>
          rw [h4] at h
          try dsimp only at h ⊢
          cases out with
          | nil =>
            try dsimp only at h ⊢
            simp only [Option.some.injEq] at h
            subst h
            rfl
          | cons o0 rest =>
            try dsimp only at h ⊢
            cases h5 : processor.decodeFn true o0 with
            | error e =>
              rw [h5] at h
              simp only [Option.some.injEq] at h
              subst h
              rfl
            | ok r =>
              rw [h5] at h
              simp at h

/-- Witness for `inference_catches_all_failures` at a concrete pipeline
whose encoding step raises an out-of-memory error. -/
theorem inference_catches_all_failures_witness :
    (inference torchOk modelOk procBadEncode img0 "q" "cpu" 0).1 =
      ("錯誤: " ++ "CUDA out of memory", none) :=
  inference_catches_all_failures torchOk modelOk procBadEncode img0 "q"
    "cpu" 0 "CUDA out of memory" (by rfl)

/-- Characterization of a successful pipeline run: the reported latency
equals the duration of the generation call alone (the encode, device
and dtype transfers happen before the start timestamp, the decode after
the end timestamp), and the trace is exactly the five external calls
with the arguments fixed at lines 58-75. -/
theorem inference_success_shape (torch : Torch) (model : Model)
    (processor : Processor) (img : PILImage) (q device : String)
    (t0 : Nat) (l : Nat)
    (h : ((inference torch model processor img q device t0).1).2 = some l) :
    l = model.generateTime ∧
    (inference torch model processor img q device t0).2 =
      [Event.encodeCall q img.mode "longest" true "pt",
       Event.toDeviceCall device,
       Event.toDtypeCall model.dtype,
       Event.generateCall 496 true,
       Event.decodeCall true] := by
  unfold inference at h ⊢
  cases h1 : processor.callFn q img "longest" true "pt" with
  | error e => rw [h1] at h; simp at h
  | ok i0 =>
    rw [h1] at h
    try dsimp only at h ⊢
    cases h2 : torch.toDevice i0 device with
    | error e => rw [h2] at h; simp at h
    | ok i1 =>
      rw [h2] at h
      try dsimp only at h ⊢
      cases h3 : torch.toDtype i1 model.dtype with
      | error e => rw [h3] at h; simp at h
      | ok i2 =>
        rw [h3] at h
        try dsimp only at h ⊢
        cases h4 : model.generateFn 496 true i2 with
        | error e => rw [h4] at h; simp at h
        | ok out =>
          rw [h4] at h
          try dsimp only at h ⊢
          cases out with
          | nil => try dsimp only at h; simp at h
          | cons o0 rest =>
            try dsimp only at h ⊢
            cases h5 : processor.decodeFn true o0 with
            | error e => rw [h5] at h; simp at h
            | ok r =>
              rw [h5] at h
              try dsimp only at h ⊢
              simp only [Option.some.injEq] at h
              refine ⟨by omega, by rfl⟩

/-- C6: the latency a successful pipeline run reports is exactly the
duration of the model's generation call; the encoding, the device/dtype
transfers and the token decoding all lie outside the timed interval. -/
theorem latency_measures_generation_only (torch : Torch) (model : Model)
    (processor : Processor) (img : PILImage) (q device : String)
    (t0 : Nat) (l : Nat)
    (h : ((inference torch model processor img q device t0).1).2 = some l) :
    l = model.generateTime :=
  (inference_success_shape torch model processor img q device t0 l h).1

/-- Witness for `latency_measures_generation_only` at a concrete
successful run (generation takes 7 ticks, encode 2, transfers 1+1,
decode 3; the reported latency is 7). -/
theorem latency_measures_generation_only_witness :
    (7 : Nat) = modelOk.generateTime :=
  latency_measures_generation_only torchOk modelOk procOk img0 "hi" "cpu"
    3 7 (by rfl)

/-- C9: on a successful run the pipeline calls the model's generation
procedure with `max_length = 496` under the no-gradient mode, and calls
the decode step with `skip_special_tokens = true`; moreover every
generation call in the trace uses exactly those arguments and every
decode call strips special tokens (the 496 cap is handed to the external
`generate`, which may stop earlier on an end-of-sequence signal). -/
theorem generation_uses_cap_nograd_and_skips_special (torch : Torch)
    (model : Model) (processor : Processor) (img : PILImage)
    (q device : String) (t0 : Nat) (l : Nat)
    (h : ((inference torch model processor img q device t0).1).2 = some l) :
    Event.generateCall 496 true ∈
      (inference torch model processor img q device t0).2 ∧
    Event.decodeCall true ∈
      (inference torch model processor img q device t0).2 ∧
    (∀ n g, Event.generateCall n g ∈
      (inference torch model processor img q device t0).2 →
      n = 496 ∧ g = true) ∧
    (∀ s, Event.decodeCall s ∈
      (inference torch model processor img q device t0).2 →
      s = true) := by
  have heq :=
    (inference_success_shape torch model processor img q device t0 l h).2
  rw [heq]
  refine ⟨by simp, by simp, ?_, ?_⟩
  · intro n g hm
    simp only [List.mem_cons, List.not_mem_nil, or_false] at hm
    rcases hm with hm | hm | hm | hm | hm
    · exact Event.noConfusion hm
    · exact Event.noConfusion hm
    · exact Event.noConfusion hm
    · simp only [Event.generateCall.injEq] at hm
      exact hm
    · exact Event.noConfusion hm
  · intro s hm
    simp only [List.mem_cons, List.not_mem_nil, or_false] at hm
    rcases hm with hm | hm | hm | hm | hm
    · exact Event.noConfusion hm
    · exact Event.noConfusion hm
    · exact Event.noConfusion hm
    · exact Event.noConfusion hm
    · simp only [Event.decodeCall.injEq] at hm
      exact hm

/-- Witness for `generation_uses_cap_nograd_and_skips_special` at a
concrete successful run. -/
theorem generation_uses_cap_nograd_witness :
    Event.generateCall 496 true ∈
      (inference torchOk modelOk procOk img0 "hi" "cpu" 3).2 ∧
    Event.decodeCall true ∈
      (inference torchOk modelOk procOk img0 "hi" "cpu" 3).2 :=
  ⟨(generation_uses_cap_nograd_and_skips_special torchOk modelOk procOk
      img0 "hi" "cpu" 3 7 (by rfl)).1,
   (generation_uses_cap_nograd_and_skips_special torchOk modelOk procOk
      img0 "hi" "cpu" 3 7 (by rfl)).2.1⟩

/-- C3: the validation gate of the ask handler blocks invocation: when
the Model Session is absent, or the image is absent, or the question is
empty after trimming (i.e. empty or whitespace-only), the Inference
Pipeline is invoked zero times. -/
theorem validation_gate_blocks_pipeline (torch : Torch)
    (state : SessionState) (image : Option PILImage)
    (input_text : String) (t0 : Nat)
    (h : state.model = none ∨ image = none ∨ pyStrip input_text = "") :
    pipelineCalls (askButtonHandler torch state image input_text t0)
      = 0 := by
  unfold askButtonHandler
  rcases h with h | h | h
  · rw [h]
    rfl
  · cases state.model with
    | none => rfl
    | some m =>
      dsimp only
      rw [h]
      rfl
  · cases state.model with
    | none => rfl
    | some m =>
      cases image with
      | none => rfl
      | some img =>
        dsimp only
        rw [if_pos h]
        rfl

/-- Witness for `validation_gate_blocks_pipeline` with no loaded
session. -/
theorem validation_gate_blocks_pipeline_witness :
    pipelineCalls
      (askButtonHandler torchOk (SessionState.mk none none "cpu") none
        "" 0) = 0 :=
  validation_gate_blocks_pipeline torchOk (SessionState.mk none none
    "cpu") none "" 0 (Or.inl rfl)

/-- The trace of any pipeline run starts with the encode call, carrying
the exact text the pipeline was handed. -/
theorem inference_trace_head (torch : Torch) (model : Model)
    (processor : Processor) (img : PILImage) (q device : String)
    (t0 : Nat) :
    ∃ t, (inference torch model processor img q device t0).2 =
      Event.encodeCall q img.mode "longest" true "pt" :: t := by
  unfold inference
  cases processor.callFn q img "longest" true "pt" with
  | error e => exact ⟨_, rfl⟩
  | ok i0 =>
    dsimp only
    cases torch.toDevice i0 device with
    | error e => exact ⟨_, rfl⟩
    | ok i1 =>
      dsimp only
      cases torch.toDtype i1 model.dtype with
      | error e => exact ⟨_, rfl⟩
      | ok i2 =>
        dsimp only
        cases model.generateFn 496 true i2 with
        | error e => exact ⟨_, rfl⟩
        | ok out =>
          dsimp only
          cases out with
          | nil => exact ⟨_, rfl⟩
          | cons o0 rest =>
            dsimp only
            cases processor.decodeFn true o0 with
            | error e => exact ⟨_, rfl⟩
            | ok r => exact ⟨_, rfl⟩

/-- A session with a loaded model and processor, for concrete runs. -/
def stateOk : SessionState :=
  { model := some modelOk, processor := some procOk, device := "cpu" }

/-- C10: when the question is non-empty after trimming (and session and
image are present), the ask handler forwards the original untrimmed
`input_text` to the pipeline, and the pipeline's encode call receives
that same untrimmed string — trimming happens only inside the
validation check. -/
theorem untrimmed_question_forwarded (torch : Torch)
    (state : SessionState) (m : Model) (p : Processor) (img : PILImage)
    (input_text : String) (t0 : Nat)
    (hm : state.model = some m) (hp : state.processor = some p)
    (hq : ¬ pyStrip input_text = "") :
    askButtonHandler torch state (some img) input_text t0 =
      AskOutcome.invoked input_text
        (inference torch m p img input_text state.device t0).1
        (inference torch m p img input_text state.device t0).2 ∧
    Event.encodeCall input_text img.mode "longest" true "pt" ∈
      (inference torch m p img input_text state.device t0).2 := by
  constructor
  · unfold askButtonHandler
    rw [hm]
    dsimp only
    rw [if_neg hq, hp]
  · obtain ⟨t, ht⟩ :=
      inference_trace_head torch m p img input_text state.device t0
    rw [ht]
    exact List.mem_cons_self _ _

/-- Witness for `untrimmed_question_forwarded` at a concrete question
with surrounding whitespace. -/
theorem untrimmed_question_forwarded_witness :
    askButtonHandler torchOk stateOk (some img0) " Hi " 0 =
      AskOutcome.invoked " Hi "
        (inference torchOk modelOk procOk img0 " Hi " stateOk.device 0).1
        (inference torchOk modelOk procOk img0 " Hi " stateOk.device 0).2 ∧
    Event.encodeCall " Hi " img0.mode "longest" true "pt" ∈
      (inference torchOk modelOk procOk img0 " Hi " stateOk.device 0).2 :=
  untrimmed_question_forwarded torchOk stateOk modelOk procOk img0 " Hi "
    0 rfl rfl (by decide)

/-- C5: if the model load raises, the exception surfaces as a visible
error and the session triple is exactly the prior one.  Python evaluates
`load_model()` before performing any of the three assignments of line
106, so a failing load assigns nothing: a partially constructed session
can never be stored. -/
theorem failed_load_leaves_session_unchanged (state : SessionState)
    (e : String) (loader : Except String (Model × Processor × String))
    (h : load_model loader = Except.error e) :
    loadButtonHandler state loader = (state, some e) := by
  unfold loadButtonHandler
  rw [h]

/-- Witness for `failed_load_leaves_session_unchanged` at a concrete
failing load. -/
theorem failed_load_leaves_session_unchanged_witness :
    loadButtonHandler (SessionState.mk none none "cpu")
        (Except.error "HTTPError 503") =
      (SessionState.mk none none "cpu", some "HTTPError 503") :=
  failed_load_leaves_session_unchanged (SessionState.mk none none "cpu")
    "HTTPError 503" (Except.error "HTTPError 503") rfl

end PaliGemma
